import Mathlib

/-!
Verification of the rule engine in `propensityagent.py`.

The program's core is the pure function `evaluate_rules`, which maps a
client profile record (a dict with defaulted lookups) to an ordered list
of recommendation records, plus a static `OFFER_CATALOG`.  We embed the
input record as a structure of `Option`-valued fields (`none` models an
absent dict key, and `Option.getD` models `dict.get(key, default)`), the
output records as a `Recommendation` structure, and `evaluate_rules` as a
direct transcription of the Python conditional chain.
-/

/-- The input record.  Each field is optional; `none` models the key being
absent from the Python dict, in which case `evaluate_rules` substitutes
the default of the corresponding `client.get(key, default)` call. -/
structure Client where
  client_name : Option String := none
  e5_propensity : Option Int := none
  security_acr : Option String := none
  sentinel_acr : Option String := none
  identity_maturity : Option String := none
  defender_active : Option Bool := none
  sentinel_active : Option Bool := none
  industry : Option String := none
  recent_incident : Option Bool := none
  multicloud : Option Bool := none
  data_risk : Option String := none
  cloud_maturity : Option String := none
deriving Repr, DecidableEq

/-- An output record, mirroring the dict literals appended to `recs`
(keys "Solution Area", "Primary Offer", "Follow-up Offer", "Rationale",
"Timeline"). -/
structure Recommendation where
  solutionArea : String
  primaryOffer : String
  followUpOffer : String
  rationale : String
  timeline : String
deriving Repr, DecidableEq

/-- The static `OFFER_CATALOG` dict: solution area name to offer names. -/
def OFFER_CATALOG : List (String × List String) :=
  [ ("IAM",
      [ "Identity Diagnostics",
        "Identity Modernization" ]),
    ("Data & AI Security",
      [ "Data & AI Security Diagnostics",
        "Data Protection Modernization" ]),
    ("SecOps",
      [ "RED Sentinel",
        "RED Defender",
        "Security Copilot Accelerator (including Agentic)",
        "Unified Threat Protection (Sentinel, TI, Defender XDR, Copilot)" ]),
    ("Cloud Security",
      [ "Cloud Security Optimization (CSPM)",
        "Cloud Security Modernization (CWPP)" ]),
    ("Cross-Solution Security",
      [ "Security Posture Assessment",
        "Zero Trust Maturity Roadmap",
        "Microsoft Security Factory Integration" ]) ]

/-- Offers listed in `OFFER_CATALOG` under a given solution-area key. -/
def catalogOffers (area : String) : List String :=
  (OFFER_CATALOG.lookup area).getD []

/-- The dict appended by the IAM diagnostics-first branch. -/
def iamDiagRec : Recommendation :=
  { solutionArea := "IAM",
    primaryOffer := "Identity Diagnostics",
    followUpOffer := "Identity Modernization",
    rationale := "Low identity maturity or limited E5 readiness. Begin with diagnostics to identify Entra security gaps before modernization.",
    timeline := "2–4 weeks" }

/-- The dict appended by the IAM modernization-first branch. -/
def iamModRec : Recommendation :=
  { solutionArea := "IAM",
    primaryOffer := "Identity Modernization",
    followUpOffer := "Identity Diagnostics",
    rationale := "Moderate readiness with decent identity posture. Focus on Conditional Access, PIM automation, and governance.",
    timeline := "4–6 weeks" }

/-- The dict appended by the Data & AI Security diagnostics-first branch. -/
def dataDiagRec : Recommendation :=
  { solutionArea := "Data & AI Security",
    primaryOffer := "Data & AI Security Diagnostics",
    followUpOffer := "Data Protection Modernization",
    rationale := "High data risk detected. Run diagnostic to assess labeling, insider risk, and AI data protection.",
    timeline := "3–5 weeks" }

/-- The dict appended by the Data & AI Security modernization-first branch. -/
def dataModRec : Recommendation :=
  { solutionArea := "Data & AI Security",
    primaryOffer := "Data Protection Modernization",
    followUpOffer := "Data & AI Security Diagnostics",
    rationale := "Moderate data risk with E5 potential. Prioritize modernization to extend Microsoft Purview and Insider Risk tools.",
    timeline := "4–6 weeks" }

/-- The dict appended by the first (Unified Threat Protection) SecOps tier. -/
def utpRec : Recommendation :=
  { solutionArea := "SecOps",
    primaryOffer := "Unified Threat Protection (Sentinel, TI, Defender XDR, Copilot)",
    followUpOffer := "Security Copilot Accelerator (including Agentic)",
    rationale := "High ACR and E5 readiness suggest opportunity for integrated SOC. Deploy unified detection and AI-assisted incident response.",
    timeline := "4–6 weeks" }

/-- The dict appended by the second (RED Sentinel) SecOps tier. -/
def redSentinelRec : Recommendation :=
  { solutionArea := "SecOps",
    primaryOffer := "RED Sentinel",
    followUpOffer := "Unified Threat Protection (Sentinel, TI, Defender XDR, Copilot)",
    rationale := "High E5 and security ACR levels with active Defender or Sentinel. Deploy RED Sentinel to accelerate modernization.",
    timeline := "4–6 weeks" }

/-- The dict appended by the third (RED Defender) SecOps tier. -/
def redDefenderRec : Recommendation :=
  { solutionArea := "SecOps",
    primaryOffer := "RED Defender",
    followUpOffer := "Security Copilot Accelerator (including Agentic)",
    rationale := "Mid-level E5 readiness and medium security ACR. Start with Defender hardening and introduce Copilot for AI-driven detection.",
    timeline := "4–5 weeks" }

/-- The dict appended by the Cloud Security optimization-first branch. -/
def cspmRec : Recommendation :=
  { solutionArea := "Cloud Security",
    primaryOffer := "Cloud Security Optimization (CSPM)",
    followUpOffer := "Cloud Security Modernization (CWPP)",
    rationale := "Multi-cloud setup with incomplete visibility. Optimize CSPM and extend CWPP workload protection.",
    timeline := "4–6 weeks" }

/-- The dict appended by the Cloud Security modernization-first branch. -/
def cwppRec : Recommendation :=
  { solutionArea := "Cloud Security",
    primaryOffer := "Cloud Security Modernization (CWPP)",
    followUpOffer := "Cloud Security Optimization (CSPM)",
    rationale := "High E5 readiness with mature cloud environment. Focus on CWPP for advanced container and workload protection.",
    timeline := "4–6 weeks" }

/-- The dict appended by the Cross-Solution capstone rule. -/
def capstoneRec : Recommendation :=
  { solutionArea := "Cross-Solution Security",
    primaryOffer := "Zero Trust Maturity Roadmap",
    followUpOffer := "Microsoft Security Factory Integration",
    rationale := "Multiple solution areas active. Recommend Zero Trust roadmap to integrate IAM, Data, Cloud, and SecOps programs.",
    timeline := "6–8 weeks" }

/-- Python `str.lower()`, embedded as a character-wise map over the
string's characters (equivalent to `String.toLower`, but defined by
structural recursion so that terms evaluate by kernel reduction). -/
def lower (s : String) : String := ⟨s.data.map Char.toLower⟩

/-- `client.get("e5_propensity", 0)`. -/
def propensityOf (client : Client) : Int := client.e5_propensity.getD 0

/-- `client.get("security_acr", "medium").lower()`. -/
def securityAcrOf (client : Client) : String :=
  lower (client.security_acr.getD "medium")

/-- `client.get("sentinel_acr", "medium").lower()`. -/
def sentinelAcrOf (client : Client) : String :=
  lower (client.sentinel_acr.getD "medium")

/-- `client.get("identity_maturity", "unknown").lower()`. -/
def identityMaturityOf (client : Client) : String :=
  lower (client.identity_maturity.getD "unknown")

/-- `client.get("defender_active", False)`. -/
def defenderActiveOf (client : Client) : Bool := client.defender_active.getD false

/-- `client.get("sentinel_active", False)`. -/
def sentinelActiveOf (client : Client) : Bool := client.sentinel_active.getD false

/-- `client.get("industry", "general").lower()` (read by the code but
never used by any rule). -/
def industryOf (client : Client) : String :=
  lower (client.industry.getD "general")

/-- `client.get("recent_incident", False)` (read by the code but never
used by any rule). -/
def recentIncidentOf (client : Client) : Bool := client.recent_incident.getD false

/-- `client.get("multicloud", False)`. -/
def multicloudOf (client : Client) : Bool := client.multicloud.getD false

/-- `client.get("data_risk", "medium").lower()`. -/
def dataRiskOf (client : Client) : String :=
  lower (client.data_risk.getD "medium")

/-- `client.get("cloud_maturity", "medium").lower()`. -/
def cloudMaturityOf (client : Client) : String :=
  lower (client.cloud_maturity.getD "medium")

/-- The IAM if/elif chain of `evaluate_rules` (its contribution to `recs`). -/
def iamRecs (propensity : Int) (identity_maturity : String) : List Recommendation :=
  if propensity < 40 ∨ identity_maturity ∈ ["weak", "none", "poor"] then
    [iamDiagRec]
  else if 40 ≤ propensity ∧ propensity < 80 ∧ identity_maturity ∈ ["average", "good"] then
    [iamModRec]
  else []

/-- The Data & AI Security if/elif chain of `evaluate_rules`. -/
def dataRecs (propensity : Int) (data_risk : String) : List Recommendation :=
  if data_risk ∈ ["high", "very high"] then
    [dataDiagRec]
  else if 60 ≤ propensity ∧ data_risk = "medium" then
    [dataModRec]
  else []

/-- The SecOps if/elif chain of `evaluate_rules`: three mutually exclusive
tiers, higher tiers checked first. -/
def secOpsRecs (propensity : Int) (security_acr sentinel_acr : String)
    (defender_active sentinel_active : Bool) : List Recommendation :=
  if (security_acr ∈ ["large", "very large"] ∨ sentinel_acr ∈ ["large", "very large"])
      ∧ 70 ≤ propensity then
    [utpRec]
  else if 80 ≤ propensity ∧ (defender_active ∨ sentinel_active) then
    [redSentinelRec]
  else if 40 ≤ propensity ∧ propensity < 80 ∧ security_acr ∈ ["small", "medium"]
      ∧ ¬sentinel_active then
    [redDefenderRec]
  else []

/-- The Cloud Security if/elif chain of `evaluate_rules`. -/
def cloudRecs (propensity : Int) (multicloud : Bool) (cloud_maturity : String) :
    List Recommendation :=
  if multicloud ∧ cloud_maturity ∈ ["medium", "low"] then
    [cspmRec]
  else if cloud_maturity = "high" ∧ 60 ≤ propensity then
    [cwppRec]
  else []

/-- The `recs` accumulator of `evaluate_rules` after the IAM, Data,
SecOps and Cloud groups have run, before the Cross-Solution rule. -/
def preRecs (client : Client) : List Recommendation :=
  iamRecs (propensityOf client) (identityMaturityOf client)
    ++ dataRecs (propensityOf client) (dataRiskOf client)
    ++ secOpsRecs (propensityOf client) (securityAcrOf client) (sentinelAcrOf client)
        (defenderActiveOf client) (sentinelActiveOf client)
    ++ cloudRecs (propensityOf client) (multicloudOf client) (cloudMaturityOf client)

/-- `evaluate_rules`: groups 1-4 accumulate into `recs`, then the
Cross-Solution capstone rule reads `len(recs)` and appends last. -/
def evaluate_rules (client : Client) : List Recommendation :=
  let recs := preRecs client
  if 70 ≤ propensityOf client ∧ securityAcrOf client ∈ ["large", "very large"]
      ∧ 3 ≤ recs.length then
    recs ++ [capstoneRec]
  else recs

/-- The record with every dict key absent: every `get` takes its default. -/
def emptyClient : Client := {}

/-- The profile of the spec's "empty result" test: `e5_propensity = 50`,
`identity_maturity = "unknown"`, every risk/maturity/ACR level
`"medium"`, every boolean `False`. -/
def medianClient : Client :=
  { e5_propensity := some 50,
    identity_maturity := some "unknown",
    security_acr := some "medium",
    sentinel_acr := some "medium",
    data_risk := some "medium",
    cloud_maturity := some "medium",
    defender_active := some false,
    sentinel_active := some false,
    recent_incident := some false,
    multicloud := some false }

/-- The profile of the spec's "capstone dependency" test: `e5_propensity
= 75`, `identity_maturity = "weak"`, `data_risk = "high"`, `multicloud =
True`, `cloud_maturity = "low"`, every other key absent (defaulted). -/
def capstoneTestClient : Client :=
  { e5_propensity := some 75,
    identity_maturity := some "weak",
    data_risk := some "high",
    multicloud := some true,
    cloud_maturity := some "low" }

/-- `capstoneTestClient` with `security_acr` raised to `"large"`, so the
capstone rule's ACR gate is satisfied. -/
def capstoneAcrClient : Client :=
  { capstoneTestClient with security_acr := some "large" }

/-- The profile of the spec's IAM boundary test: `e5_propensity = 40`
with `identity_maturity = "weak"`, every other key absent. -/
def boundaryClient : Client :=
  { e5_propensity := some 40, identity_maturity := some "weak" }

/-- A profile satisfying both the first (Unified Threat Protection) and
second (RED Sentinel) SecOps tier predicates at once. -/
def secOpsOverlapClient : Client :=
  { e5_propensity := some 80, security_acr := some "large",
    defender_active := some true }

/-- The documented default for every field read by `evaluate_rules`,
substituted explicitly: `e5_propensity` 0, `identity_maturity`
`"unknown"`, the risk/maturity/ACR levels `"medium"`, `industry`
`"general"`, booleans `False` (`client_name` is never read and has no
default). -/
def applyDefaults (c : Client) : Client :=
  { client_name := c.client_name,
    e5_propensity := some (c.e5_propensity.getD 0),
    security_acr := some (c.security_acr.getD "medium"),
    sentinel_acr := some (c.sentinel_acr.getD "medium"),
    identity_maturity := some (c.identity_maturity.getD "unknown"),
    defender_active := some (c.defender_active.getD false),
    sentinel_active := some (c.sentinel_active.getD false),
    industry := some (c.industry.getD "general"),
    recent_incident := some (c.recent_incident.getD false),
    multicloud := some (c.multicloud.getD false),
    data_risk := some (c.data_risk.getD "medium"),
    cloud_maturity := some (c.cloud_maturity.getD "medium") }

/-- A record with unrecognized categorical values in every enum field and
all booleans false, parameterized by the raw strings. -/
def oddClient (p : Int) (im dr cm sa sna : String) : Client :=
  { e5_propensity := some p, identity_maturity := some im,
    data_risk := some dr, cloud_maturity := some cm,
    security_acr := some sa, sentinel_acr := some sna,
    defender_active := some false, sentinel_active := some false,
    multicloud := some false }

/-- `evaluate_rules` with its `recs` accumulator named: groups 1-4 give
`preRecs`, then the capstone conditional appends. -/
lemma evaluate_rules_eq (c : Client) :
    evaluate_rules c =
      if 70 ≤ propensityOf c ∧ securityAcrOf c ∈ ["large", "very large"]
          ∧ 3 ≤ (preRecs c).length
      then preRecs c ++ [capstoneRec] else preRecs c := rfl

lemma iamRecs_cases (p : Int) (im : String) :
    iamRecs p im = [] ∨ iamRecs p im = [iamDiagRec] ∨ iamRecs p im = [iamModRec] := by
  unfold iamRecs
  split_ifs <;> simp

lemma dataRecs_cases (p : Int) (dr : String) :
    dataRecs p dr = [] ∨ dataRecs p dr = [dataDiagRec] ∨ dataRecs p dr = [dataModRec] := by
  unfold dataRecs
  split_ifs <;> simp

lemma secOpsRecs_cases (p : Int) (sa sna : String) (da se : Bool) :
    secOpsRecs p sa sna da se = [] ∨ secOpsRecs p sa sna da se = [utpRec]
      ∨ secOpsRecs p sa sna da se = [redSentinelRec]
      ∨ secOpsRecs p sa sna da se = [redDefenderRec] := by
  unfold secOpsRecs
  split_ifs <;> simp

lemma cloudRecs_cases (p : Int) (mc : Bool) (cm : String) :
    cloudRecs p mc cm = [] ∨ cloudRecs p mc cm = [cspmRec]
      ∨ cloudRecs p mc cm = [cwppRec] := by
  unfold cloudRecs
  split_ifs <;> simp

lemma mem_iamRecs_sub (p : Int) (im : String) (r : Recommendation)
    (h : r ∈ iamRecs p im) : r = iamDiagRec ∨ r = iamModRec := by
  unfold iamRecs at h
  split_ifs at h <;> simp_all

lemma mem_dataRecs_sub (p : Int) (dr : String) (r : Recommendation)
    (h : r ∈ dataRecs p dr) : r = dataDiagRec ∨ r = dataModRec := by
  unfold dataRecs at h
  split_ifs at h <;> simp_all

lemma mem_secOpsRecs_sub (p : Int) (sa sna : String) (da se : Bool) (r : Recommendation)
    (h : r ∈ secOpsRecs p sa sna da se) :
    r = utpRec ∨ r = redSentinelRec ∨ r = redDefenderRec := by
  unfold secOpsRecs at h
  split_ifs at h <;> simp_all

lemma mem_cloudRecs_sub (p : Int) (mc : Bool) (cm : String) (r : Recommendation)
    (h : r ∈ cloudRecs p mc cm) : r = cspmRec ∨ r = cwppRec := by
  unfold cloudRecs at h
  split_ifs at h <;> simp_all

lemma mem_preRecs_iff (c : Client) (r : Recommendation) :
    r ∈ preRecs c ↔
      r ∈ iamRecs (propensityOf c) (identityMaturityOf c)
      ∨ r ∈ dataRecs (propensityOf c) (dataRiskOf c)
      ∨ r ∈ secOpsRecs (propensityOf c) (securityAcrOf c) (sentinelAcrOf c)
          (defenderActiveOf c) (sentinelActiveOf c)
      ∨ r ∈ cloudRecs (propensityOf c) (multicloudOf c) (cloudMaturityOf c) := by
  simp [preRecs, List.mem_append, or_assoc]

lemma mem_evaluate_rules_iff (c : Client) (r : Recommendation) :
    r ∈ evaluate_rules c ↔
      r ∈ preRecs c
      ∨ ((70 ≤ propensityOf c ∧ securityAcrOf c ∈ ["large", "very large"]
          ∧ 3 ≤ (preRecs c).length) ∧ r = capstoneRec) := by
  rw [evaluate_rules_eq]
  split_ifs with h
  · simp [h]
  · constructor
    · exact fun hx => Or.inl hx
    · rintro (hx | ⟨hc, -⟩)
      · exact hx
      · exact absurd hc h

lemma capstone_not_mem_preRecs (c : Client) : capstoneRec ∉ preRecs c := by
  intro h
  rw [mem_preRecs_iff] at h
  rcases h with h | h | h | h
  · rcases mem_iamRecs_sub _ _ _ h with h | h <;> exact absurd h (by decide)
  · rcases mem_dataRecs_sub _ _ _ h with h | h <;> exact absurd h (by decide)
  · rcases mem_secOpsRecs_sub _ _ _ _ _ _ h with h | h | h <;> exact absurd h (by decide)
  · rcases mem_cloudRecs_sub _ _ _ _ h with h | h <;> exact absurd h (by decide)

lemma filter_IAM_length_le (c : Client) :
    ((evaluate_rules c).filter (fun r => r.solutionArea == "IAM")).length ≤ 1 := by
  rw [evaluate_rules_eq]
  unfold preRecs
  rcases iamRecs_cases (propensityOf c) (identityMaturityOf c) with h1 | h1 | h1 <;>
    rcases dataRecs_cases (propensityOf c) (dataRiskOf c) with h2 | h2 | h2 <;>
    rcases secOpsRecs_cases (propensityOf c) (securityAcrOf c) (sentinelAcrOf c)
      (defenderActiveOf c) (sentinelActiveOf c) with h3 | h3 | h3 | h3 <;>
    rcases cloudRecs_cases (propensityOf c) (multicloudOf c) (cloudMaturityOf c)
      with h4 | h4 | h4 <;>
    rw [h1, h2, h3, h4] <;> split_ifs <;> decide

lemma filter_SecOps_length_le (c : Client) :
    ((evaluate_rules c).filter (fun r => r.solutionArea == "SecOps")).length ≤ 1 := by
  rw [evaluate_rules_eq]
  unfold preRecs
  rcases iamRecs_cases (propensityOf c) (identityMaturityOf c) with h1 | h1 | h1 <;>
    rcases dataRecs_cases (propensityOf c) (dataRiskOf c) with h2 | h2 | h2 <;>
    rcases secOpsRecs_cases (propensityOf c) (securityAcrOf c) (sentinelAcrOf c)
      (defenderActiveOf c) (sentinelActiveOf c) with h3 | h3 | h3 | h3 <;>
    rcases cloudRecs_cases (propensityOf c) (multicloudOf c) (cloudMaturityOf c)
      with h4 | h4 | h4 <;>
    rw [h1, h2, h3, h4] <;> split_ifs <;> decide

lemma iamDiag_mem_iamRecs (p : Int) (im : String) :
    iamDiagRec ∈ iamRecs p im ↔ (p < 40 ∨ im ∈ ["weak", "none", "poor"]) := by
  have hne : iamDiagRec ≠ iamModRec := by decide
  unfold iamRecs
  split_ifs with h1 h2
  · exact iff_of_true (List.mem_singleton.mpr rfl) h1
  · exact iff_of_false (fun hm => hne (List.mem_singleton.mp hm)) h1
  · exact iff_of_false (List.not_mem_nil _) h1

lemma iamMod_mem_iamRecs (p : Int) (im : String) :
    iamModRec ∈ iamRecs p im ↔
      (40 ≤ p ∧ p < 80 ∧ im ∈ ["average", "good"]) := by
  have hne : iamModRec ≠ iamDiagRec := by decide
  unfold iamRecs
  split_ifs with h1 h2
  · refine iff_of_false (fun hm => hne (List.mem_singleton.mp hm)) ?_
    rintro ⟨h40, -, him⟩
    rcases h1 with hlt | hmem
    · omega
    · simp only [List.mem_cons, List.not_mem_nil, or_false] at him
      rcases him with rfl | rfl <;> exact absurd hmem (by decide)
  · exact iff_of_true (List.mem_singleton.mpr rfl) h2
  · exact iff_of_false (List.not_mem_nil _) h2

lemma iamDiag_not_mem_rest (c : Client) :
    iamDiagRec ∉ dataRecs (propensityOf c) (dataRiskOf c)
    ∧ iamDiagRec ∉ secOpsRecs (propensityOf c) (securityAcrOf c) (sentinelAcrOf c)
        (defenderActiveOf c) (sentinelActiveOf c)
    ∧ iamDiagRec ∉ cloudRecs (propensityOf c) (multicloudOf c) (cloudMaturityOf c) := by
  refine ⟨fun h => ?_, fun h => ?_, fun h => ?_⟩
  · rcases mem_dataRecs_sub _ _ _ h with h | h <;> exact absurd h (by decide)
  · rcases mem_secOpsRecs_sub _ _ _ _ _ _ h with h | h | h <;> exact absurd h (by decide)
  · rcases mem_cloudRecs_sub _ _ _ _ h with h | h <;> exact absurd h (by decide)

lemma iamMod_not_mem_rest (c : Client) :
    iamModRec ∉ dataRecs (propensityOf c) (dataRiskOf c)
    ∧ iamModRec ∉ secOpsRecs (propensityOf c) (securityAcrOf c) (sentinelAcrOf c)
        (defenderActiveOf c) (sentinelActiveOf c)
    ∧ iamModRec ∉ cloudRecs (propensityOf c) (multicloudOf c) (cloudMaturityOf c) := by
  refine ⟨fun h => ?_, fun h => ?_, fun h => ?_⟩
  · rcases mem_dataRecs_sub _ _ _ h with h | h <;> exact absurd h (by decide)
  · rcases mem_secOpsRecs_sub _ _ _ _ _ _ h with h | h | h <;> exact absurd h (by decide)
  · rcases mem_cloudRecs_sub _ _ _ _ h with h | h <;> exact absurd h (by decide)

lemma secOpsRecs_tier1 (p : Int) (sa sna : String) (da se : Bool)
    (h : (sa ∈ ["large", "very large"] ∨ sna ∈ ["large", "very large"]) ∧ 70 ≤ p) :
    secOpsRecs p sa sna da se = [utpRec] := by
  unfold secOpsRecs
  rw [if_pos h]

/-- Claim C1 (counterexample): toggling `recent_incident` on an otherwise
fixed profile does not change the output of `evaluate_rules`, and no
additional incident recommendation is emitted — refuting the claim that
an incident rule fires whenever `recent_incident` is true. -/
theorem claim_C1_counterexample :
    evaluate_rules { medianClient with recent_incident := some true }
      = evaluate_rules { medianClient with recent_incident := some false }
    ∧ evaluate_rules { medianClient with recent_incident := some true }
      = [redDefenderRec] := by
  constructor <;> decide

/-- Claim C1 (amended): `evaluate_rules` reads `recent_incident` but no
rule uses it; for every profile, changing `recent_incident` to any value
(present or absent) leaves the output unchanged. -/
theorem claim_C1_amended_thm (c : Client) (b : Option Bool) :
    evaluate_rules { c with recent_incident := b } = evaluate_rules c := rfl

/-- Claim C1 (witness): the amended theorem applied at a concrete profile. -/
theorem claim_C1_witness :
    evaluate_rules { emptyClient with recent_incident := some true }
      = evaluate_rules emptyClient :=
  claim_C1_amended_thm emptyClient (some true)

/-- Claim C2 (counterexample): the all-medium profile with
`e5_propensity = 50` does not yield an empty list. -/
theorem claim_C2_counterexample : evaluate_rules medianClient ≠ [] := by decide

/-- Claim C2 (amended): the all-medium profile with `e5_propensity = 50`
yields exactly one recommendation, the SecOps RED Defender record (the
`40 <= e5_propensity < 80`, small/medium `security_acr`, Sentinel-inactive
tier fires on it). -/
theorem claim_C2_amended_thm : evaluate_rules medianClient = [redDefenderRec] := by
  decide

/-- Claim C3 (counterexample): the capstone-dependency test profile
(`e5_propensity = 75`, `identity_maturity = "weak"`, `data_risk = "high"`,
`multicloud = True`, `cloud_maturity = "low"`, everything else defaulted)
does not include the Zero Trust capstone recommendation. -/
theorem claim_C3_counterexample :
    capstoneRec ∉ evaluate_rules capstoneTestClient := by decide

/-- Claim C3 (amended): on the stated profile the capstone is absent —
with `multicloud` either true or false — because `security_acr` defaults
to `"medium"` and the capstone also requires `security_acr` in
{large, very large}.  Raising `security_acr` to `"large"` makes the
capstone appear, but then setting `multicloud = false` no longer removes
it: the Unified Threat Protection SecOps tier fires on the large-ACR
profile and keeps the accumulated count at 3. -/
theorem claim_C3_amended_thm :
    capstoneRec ∉ evaluate_rules capstoneTestClient
    ∧ capstoneRec ∉ evaluate_rules { capstoneTestClient with multicloud := some false }
    ∧ capstoneRec ∈ evaluate_rules capstoneAcrClient
    ∧ capstoneRec ∈ evaluate_rules { capstoneAcrClient with multicloud := some false } := by
  refine ⟨by decide, by decide, by decide, by decide⟩

/-- Claim C4: for every profile, the capstone recommendation is emitted
iff `e5_propensity >= 70`, the lowered `security_acr` is `"large"` or
`"very large"`, and groups 1-4 accumulated at least 3 recommendations;
and when emitted it is the last element of the output. -/
theorem claim_C4_thm (c : Client) :
    (capstoneRec ∈ evaluate_rules c ↔
      (70 ≤ propensityOf c ∧ securityAcrOf c ∈ ["large", "very large"]
        ∧ 3 ≤ (preRecs c).length))
    ∧ (capstoneRec ∈ evaluate_rules c →
        (evaluate_rules c).getLast? = some capstoneRec) := by
  have hnot := capstone_not_mem_preRecs c
  rw [evaluate_rules_eq]
  split_ifs with h
  · exact ⟨iff_of_true (by simp) h, fun _ => List.getLast?_concat _⟩
  · exact ⟨iff_of_false hnot h, fun hm => absurd hm hnot⟩

/-- Claim C4 (witness): the capstone criterion instantiated at the
large-ACR capstone profile, where the capstone fires and is last. -/
theorem claim_C4_witness :
    (capstoneRec ∈ evaluate_rules capstoneAcrClient ↔
      (70 ≤ propensityOf capstoneAcrClient
        ∧ securityAcrOf capstoneAcrClient ∈ ["large", "very large"]
        ∧ 3 ≤ (preRecs capstoneAcrClient).length))
    ∧ (evaluate_rules capstoneAcrClient).getLast? = some capstoneRec :=
  ⟨(claim_C4_thm capstoneAcrClient).1,
    (claim_C4_thm capstoneAcrClient).2 (by decide)⟩

/-- Claim C5: the identity group emits at most one recommendation; the
Diagnostics-first record appears iff `e5_propensity < 40` or the lowered
`identity_maturity` is weak/none/poor; the Modernization-first record
appears iff `40 <= e5_propensity < 80` and maturity is average/good; and
the boundary profile (`e5_propensity = 40`, maturity `"weak"`) yields
exactly the Diagnostics-first IAM record. -/
theorem claim_C5_thm :
    (∀ c : Client,
      ((evaluate_rules c).filter (fun r => r.solutionArea == "IAM")).length ≤ 1
      ∧ (iamDiagRec ∈ evaluate_rules c ↔
          (propensityOf c < 40 ∨ identityMaturityOf c ∈ ["weak", "none", "poor"]))
      ∧ (iamModRec ∈ evaluate_rules c ↔
          (40 ≤ propensityOf c ∧ propensityOf c < 80
            ∧ identityMaturityOf c ∈ ["average", "good"])))
    ∧ (evaluate_rules boundaryClient).filter (fun r => r.solutionArea == "IAM")
        = [iamDiagRec] := by
  refine ⟨fun c => ⟨filter_IAM_length_le c, ?_, ?_⟩, by decide⟩
  · rw [mem_evaluate_rules_iff, mem_preRecs_iff, iamDiag_mem_iamRecs]
    have hrest := iamDiag_not_mem_rest c
    constructor
    · rintro ((h | h | h | h) | ⟨-, hc⟩)
      · exact h
      · exact absurd h hrest.1
      · exact absurd h hrest.2.1
      · exact absurd h hrest.2.2
      · exact absurd hc (by decide)
    · exact fun h => Or.inl (Or.inl h)
  · rw [mem_evaluate_rules_iff, mem_preRecs_iff, iamMod_mem_iamRecs]
    have hrest := iamMod_not_mem_rest c
    constructor
    · rintro ((h | h | h | h) | ⟨-, hc⟩)
      · exact h
      · exact absurd h hrest.1
      · exact absurd h hrest.2.1
      · exact absurd h hrest.2.2
      · exact absurd hc (by decide)
    · exact fun h => Or.inl (Or.inl h)

/-- Claim C5 (witness): the IAM-group properties instantiated at the
boundary profile. -/
theorem claim_C5_witness :
    ((evaluate_rules boundaryClient).filter
        (fun r => r.solutionArea == "IAM")).length ≤ 1
    ∧ (iamDiagRec ∈ evaluate_rules boundaryClient ↔
        (propensityOf boundaryClient < 40
          ∨ identityMaturityOf boundaryClient ∈ ["weak", "none", "poor"]))
    ∧ (iamModRec ∈ evaluate_rules boundaryClient ↔
        (40 ≤ propensityOf boundaryClient ∧ propensityOf boundaryClient < 80
          ∧ identityMaturityOf boundaryClient ∈ ["average", "good"])) :=
  claim_C5_thm.1 boundaryClient

/-- Claim C6: the SecOps group contributes at most one recommendation,
and when the first-tier predicate holds (large/very-large `security_acr`
or `sentinel_acr`, and `e5_propensity >= 70`) only the Unified Threat
Protection record is emitted, never RED Sentinel or RED Defender. -/
theorem claim_C6_thm (c : Client) :
    ((evaluate_rules c).filter (fun r => r.solutionArea == "SecOps")).length ≤ 1
    ∧ (((securityAcrOf c ∈ ["large", "very large"]
          ∨ sentinelAcrOf c ∈ ["large", "very large"])
        ∧ 70 ≤ propensityOf c) →
        utpRec ∈ evaluate_rules c
        ∧ redSentinelRec ∉ evaluate_rules c
        ∧ redDefenderRec ∉ evaluate_rules c) := by
  refine ⟨filter_SecOps_length_le c, fun h => ?_⟩
  have hs := secOpsRecs_tier1 (propensityOf c) (securityAcrOf c) (sentinelAcrOf c)
    (defenderActiveOf c) (sentinelActiveOf c) h
  refine ⟨?_, fun hm => ?_, fun hm => ?_⟩
  · rw [mem_evaluate_rules_iff, mem_preRecs_iff, hs]
    exact Or.inl (Or.inr (Or.inr (Or.inl (List.mem_singleton.mpr rfl))))
  · rw [mem_evaluate_rules_iff, mem_preRecs_iff, hs] at hm
    rcases hm with (hm | hm | hm | hm) | ⟨-, hm⟩
    · rcases mem_iamRecs_sub _ _ _ hm with hm | hm <;> exact absurd hm (by decide)
    · rcases mem_dataRecs_sub _ _ _ hm with hm | hm <;> exact absurd hm (by decide)
    · exact absurd (List.mem_singleton.mp hm) (by decide)
    · rcases mem_cloudRecs_sub _ _ _ _ hm with hm | hm <;> exact absurd hm (by decide)
    · exact absurd hm (by decide)
  · rw [mem_evaluate_rules_iff, mem_preRecs_iff, hs] at hm
    rcases hm with (hm | hm | hm | hm) | ⟨-, hm⟩
    · rcases mem_iamRecs_sub _ _ _ hm with hm | hm <;> exact absurd hm (by decide)
    · rcases mem_dataRecs_sub _ _ _ hm with hm | hm <;> exact absurd hm (by decide)
    · exact absurd (List.mem_singleton.mp hm) (by decide)
    · rcases mem_cloudRecs_sub _ _ _ _ hm with hm | hm <;> exact absurd hm (by decide)
    · exact absurd hm (by decide)

/-- Claim C6 (witness): a profile satisfying both the first and second
SecOps tier predicates gets only the Unified Threat Protection record. -/
theorem claim_C6_witness :
    utpRec ∈ evaluate_rules secOpsOverlapClient
    ∧ redSentinelRec ∉ evaluate_rules secOpsOverlapClient
    ∧ redDefenderRec ∉ evaluate_rules secOpsOverlapClient :=
  (claim_C6_thm secOpsOverlapClient).2 (by decide)

/-- Claim C7: `evaluate_rules` is total with the documented defaults —
explicitly substituting every documented default leaves the result
unchanged, the all-absent record evaluates (to the IAM diagnostics
record, since `e5_propensity` defaults to 0 < 40), and unrecognized
categorical values fail every predicate that tests them, so with all
booleans false only the propensity test can still fire. -/
theorem claim_C7_thm :
    (∀ c : Client, evaluate_rules (applyDefaults c) = evaluate_rules c)
    ∧ evaluate_rules emptyClient = [iamDiagRec]
    ∧ (∀ (p : Int) (im dr cm sa sna : String),
        lower im ∉ ["weak", "none", "poor", "average", "good"] →
        lower dr ∉ ["high", "very high", "medium"] →
        lower sa ∉ ["large", "very large", "small", "medium"] →
        lower sna ∉ ["large", "very large"] →
        lower cm ∉ ["medium", "low", "high"] →
        evaluate_rules (oddClient p im dr cm sa sna)
          = if p < 40 then [iamDiagRec] else []) := by
  refine ⟨fun c => rfl, by decide, ?_⟩
  intro p im dr cm sa sna him hdr hsa hsna hcm
  simp only [List.mem_cons, List.not_mem_nil, or_false, not_or] at him hdr hsa hsna hcm
  obtain ⟨him1, him2, him3, him4, him5⟩ := him
  obtain ⟨hdr1, hdr2, hdr3⟩ := hdr
  obtain ⟨hsa1, hsa2, hsa3, hsa4⟩ := hsa
  obtain ⟨hsna1, hsna2⟩ := hsna
  obtain ⟨hcm1, hcm2, hcm3⟩ := hcm
  simp only [evaluate_rules_eq, preRecs, iamRecs, dataRecs, secOpsRecs, cloudRecs,
    propensityOf, identityMaturityOf, dataRiskOf, securityAcrOf, sentinelAcrOf,
    cloudMaturityOf, defenderActiveOf, sentinelActiveOf, multicloudOf, oddClient,
    Option.getD_some, List.mem_cons, List.not_mem_nil, or_false, false_or,
    him1, him2, him3, him4, him5, hdr1, hdr2, hdr3, hsa1, hsa2, hsa3, hsa4,
    hsna1, hsna2, hcm1, hcm2, hcm3, and_false, false_and, and_true, true_and,
    or_self, if_false, if_true, List.append_nil, List.nil_append, List.length_nil]
  split_ifs <;> simp_all

/-- Claim C7 (witness): the unrecognized-values clause instantiated at
concrete out-of-enumeration strings. -/
theorem claim_C7_witness :
    (lower "Mystery" ∉ ["weak", "none", "poor", "average", "good"]
      ∧ lower "zzz" ∉ ["high", "very high", "medium"]
      ∧ lower "tiny" ∉ ["large", "very large", "small", "medium"]
      ∧ lower "tiny" ∉ ["large", "very large"]
      ∧ lower "unset" ∉ ["medium", "low", "high"])
    ∧ evaluate_rules (oddClient 50 "Mystery" "zzz" "unset" "tiny" "tiny")
      = if (50 : Int) < 40 then [iamDiagRec] else [] :=
  ⟨⟨by decide, by decide, by decide, by decide, by decide⟩,
    claim_C7_thm.2.2 50 "Mystery" "zzz" "unset" "tiny" "tiny"
      (by decide) (by decide) (by decide) (by decide) (by decide)⟩

lemma mem_evaluate_rules_all (c : Client) (r : Recommendation)
    (h : r ∈ evaluate_rules c) :
    r ∈ [iamDiagRec, iamModRec, dataDiagRec, dataModRec, utpRec, redSentinelRec,
      redDefenderRec, cspmRec, cwppRec, capstoneRec] := by
  rw [mem_evaluate_rules_iff, mem_preRecs_iff] at h
  rcases h with (h | h | h | h) | ⟨-, rfl⟩
  · rcases mem_iamRecs_sub _ _ _ h with rfl | rfl <;> decide
  · rcases mem_dataRecs_sub _ _ _ h with rfl | rfl <;> decide
  · rcases mem_secOpsRecs_sub _ _ _ _ _ _ h with rfl | rfl | rfl <;> decide
  · rcases mem_cloudRecs_sub _ _ _ _ h with rfl | rfl <;> decide
  · decide

/-- Claim C8: every emitted recommendation is catalog-consistent — its
primary and follow-up offers both appear in the `OFFER_CATALOG` entry for
its solution area. -/
theorem claim_C8_thm (c : Client) (r : Recommendation) (h : r ∈ evaluate_rules c) :
    r.primaryOffer ∈ catalogOffers r.solutionArea
    ∧ r.followUpOffer ∈ catalogOffers r.solutionArea := by
  have h10 := mem_evaluate_rules_all c r h
  simp only [List.mem_cons, List.not_mem_nil, or_false] at h10
  rcases h10 with rfl | rfl | rfl | rfl | rfl | rfl | rfl | rfl | rfl | rfl <;> decide

/-- Claim C8 (witness): catalog consistency at a concrete emitted record. -/
theorem claim_C8_witness :
    iamDiagRec ∈ evaluate_rules emptyClient
    ∧ (iamDiagRec.primaryOffer ∈ catalogOffers iamDiagRec.solutionArea
      ∧ iamDiagRec.followUpOffer ∈ catalogOffers iamDiagRec.solutionArea) :=
  ⟨by decide, claim_C8_thm emptyClient iamDiagRec (by decide)⟩

/-- Claim C9: the output has at most 5 elements and no two of them share
a "Solution Area" value. -/
theorem claim_C9_thm (c : Client) :
    (evaluate_rules c).length ≤ 5
    ∧ ((evaluate_rules c).map (fun r => r.solutionArea)).Nodup := by
  rw [evaluate_rules_eq]
  unfold preRecs
  rcases iamRecs_cases (propensityOf c) (identityMaturityOf c) with h1 | h1 | h1 <;>
    rcases dataRecs_cases (propensityOf c) (dataRiskOf c) with h2 | h2 | h2 <;>
    rcases secOpsRecs_cases (propensityOf c) (securityAcrOf c) (sentinelAcrOf c)
      (defenderActiveOf c) (sentinelActiveOf c) with h3 | h3 | h3 | h3 <;>
    rcases cloudRecs_cases (propensityOf c) (multicloudOf c) (cloudMaturityOf c)
      with h4 | h4 | h4 <;>
    rw [h1, h2, h3, h4] <;> split_ifs <;> exact ⟨by decide, by decide⟩

/-- Claim C9 (witness): the size and area-uniqueness bound at the
profile where all five solution areas fire. -/
theorem claim_C9_witness :
    (evaluate_rules capstoneAcrClient).length ≤ 5
    ∧ ((evaluate_rules capstoneAcrClient).map (fun r => r.solutionArea)).Nodup :=
  claim_C9_thm capstoneAcrClient

/-- Claim C10: the output of `evaluate_rules` does not depend on the
`industry`, `client_name` or `recent_incident` fields — any two records
agreeing on all other fields produce equal outputs. -/
theorem claim_C10_thm (c1 c2 : Client)
    (h1 : c1.e5_propensity = c2.e5_propensity)
    (h2 : c1.security_acr = c2.security_acr)
    (h3 : c1.sentinel_acr = c2.sentinel_acr)
    (h4 : c1.identity_maturity = c2.identity_maturity)
    (h5 : c1.defender_active = c2.defender_active)
    (h6 : c1.sentinel_active = c2.sentinel_active)
    (h7 : c1.multicloud = c2.multicloud)
    (h8 : c1.data_risk = c2.data_risk)
    (h9 : c1.cloud_maturity = c2.cloud_maturity) :
    evaluate_rules c1 = evaluate_rules c2 := by
  cases c1
  cases c2
  dsimp only at h1 h2 h3 h4 h5 h6 h7 h8 h9
  subst h1 h2 h3 h4 h5 h6 h7 h8 h9
  rfl

/-- Claim C10 (witness): two profiles differing only in `industry`,
`client_name` and `recent_incident` produce the same output. -/
theorem claim_C10_witness :
    evaluate_rules
      { emptyClient with
          industry := some "Finance",
          client_name := some "Contoso Ltd",
          recent_incident := some true }
    = evaluate_rules emptyClient :=
  claim_C10_thm _ _ rfl rfl rfl rfl rfl rfl rfl rfl rfl
